import Mathlib

/-!
Shallow embedding of the `@takodotid/azure-rest` client library
(source under `src/`): the credential-resolution chain
(`DefaultChainedCredential` / `ChainedCredential`), the four credential
strategies' token-derivation and stderr-classification logic, and the
token-lifecycle-aware HTTP dispatcher (`AzureClient`).

Modelling conventions:
* A JavaScript `Date` is `Option Int`: `some ms` is a date holding `ms`
  milliseconds since the epoch, `none` is an Invalid Date (NaN time value).
* External effects (the HTTP transport, subprocess execution, the file
  system, the wall clock) are parameters: the helper credential is a
  function from the invocation index to its outcome, the clock is a
  function from the loop-iteration index to the current time, and the
  dispatcher returns the request it would hand to the transport instead
  of performing it.
* JavaScript number parsing is modelled for decimal-digit strings:
  `jsNumber` (the `Number(...)` coercion) accepts exactly the strings made
  of decimal digits and maps `""` to `0`; `jsParseInt10`
  (`Number.parseInt(s, 10)`) takes the longest leading run of digits and
  is NaN (`none`) when there is none.  Signs, exponents and fractions do
  not occur in the provider fields being parsed.
-/

set_option autoImplicit false

namespace AzureRest

/-- A JavaScript `Date` value: milliseconds since the epoch, or `none` for
an Invalid Date (a NaN time value). -/
abbrev JsDate := Option Int

/-- JavaScript `d > now` where `d` is a `Date` and `now` the current time in
milliseconds: an Invalid Date compares false. Models the check
`this.token.expiresAt > new Date()` in `AzureClient.sendRequest`. -/
def jsDateGt (d : JsDate) (now : Int) : Bool :=
  match d with
  | some ms => now < ms
  | none => false

/-- The token value produced by the credential strategies
(`src/credentials/*`): `accessToken`, `expiresAt`, and the optional
`tokenType` / `clientId` fields. -/
structure Token where
  accessToken : String
  expiresAt : JsDate
  tokenType : Option String := none
  clientId : Option String := none
deriving Repr, DecidableEq

/-- JavaScript truthiness of a possibly-absent string: `undefined` and the
empty string are falsy. -/
def jsTruthyStr : Option String → Bool
  | none => false
  | some s => !(s == "")

/-- Accumulate the decimal value of a digit list; `none` as soon as a
non-digit character appears. -/
def decDigitsAux : List Char → Nat → Option Nat
  | [], acc => some acc
  | ch :: cs, acc =>
      if ch.isDigit then decDigitsAux cs (acc * 10 + (ch.toNat - 48)) else none

/-- JavaScript `Number(s)` restricted to decimal-digit strings: `""` gives
`0`, a digit string gives its value, anything else is NaN (`none`). -/
def jsNumber (s : String) : Option Int :=
  match s.toList with
  | [] => some 0
  | cs => (decDigitsAux cs 0).map Int.ofNat

/-- Longest leading run of decimal digits of a character list. -/
def leadingDigits : List Char → List Char
  | [] => []
  | ch :: cs => if ch.isDigit then ch :: leadingDigits cs else []

/-- JavaScript `Number.parseInt(s, 10)` restricted to the shapes occurring
here: value of the longest leading digit run, NaN (`none`) when the string
does not start with a digit. -/
def jsParseInt10 (s : String) : Option Nat :=
  match leadingDigits s.toList with
  | [] => none
  | cs => decDigitsAux cs 0

/-- JavaScript `Array.prototype.join("\n")`. -/
def joinNewline : List String → String
  | [] => ""
  | [x] => x
  | x :: y :: xs => x ++ "\n" ++ joinNewline (y :: xs)

/-! ## Chained credential (`src/lib/DefaultChainedCredential.ts`,
`src/unnamed/part_004` `ChainedCredential`)

Both generations iterate the fixed chain
`[WorkloadIdentityCredential, ManagedIdentityCredential,
ServicePrincipalCredential, AzureCliCredential]`, return the first
strategy's successful token, record `(Credential.name, error.message)` for
each failure, and aggregate all failures into one error.  Each strategy's
`fromEnv().getToken(scope)` call is external I/O, so its outcome is a
parameter (`Except String Token`, the error being the thrown message). -/

/-- Result of a chained `getToken`: the returned token or thrown message,
together with the class names of the strategies that were invoked, in
invocation order. -/
structure ChainResult where
  result : Except String Token
  invoked : List String
deriving Repr

/-- The aggregate error text of `DefaultChainedCredential.getToken` when
every strategy failed: the template literal
`Failed to get token, errors:\n` followed by
`errors.map(err => "[" + err.name + "] " + err.error.message).join("\n")`. -/
def aggregateErrorMessage (errs : List (String × String)) : String :=
  "Failed to get token, errors:\n" ++
    joinNewline (errs.map (fun p => "[" ++ p.1 ++ "] " ++ p.2))

/-- The strategy loop of `DefaultChainedCredential.getToken`: try each
named strategy in order, return the first success, push
`(name, message)` for each failure, and throw the aggregate error when the
list is exhausted. -/
def chainedGetTokenAux : List (String × Except String Token) → List (String × String) → ChainResult
  | [], errs => { result := .error (aggregateErrorMessage errs), invoked := [] }
  | (name, r) :: rest, errs =>
      match r with
      | .ok t => { result := .ok t, invoked := [name] }
      | .error e =>
          { result := (chainedGetTokenAux rest (errs ++ [(name, e)])).result
            invoked := name :: (chainedGetTokenAux rest (errs ++ [(name, e)])).invoked }

/-- `DefaultChainedCredential.getToken` over the fixed chain
Workload Identity → Managed Identity → Service Principal → CLI, with the
four strategies' outcomes as parameters. -/
def DefaultChainedCredential.getToken (w m s c : Except String Token) : ChainResult :=
  chainedGetTokenAux
    [("WorkloadIdentityCredential", w), ("ManagedIdentityCredential", m),
     ("ServicePrincipalCredential", s), ("AzureCliCredential", c)] []

/-! ## Azure CLI strategy (`src/credentials/AzureCliCredential.ts`,
`src/lib/AzureCliCredential.ts`)

`parseCliLoginError` classifies subprocess stderr with the patterns
`(.*)az login --scope(.*)`, `(.*)az login(.*)`, `az:(.*)not found` and the
`startsWith("'az' is not recognized")` check.  `.` does not match a
newline, and none of the fixed needles contain one, so the first two
patterns match exactly when the needle occurs in the text, and the third
when some line contains `az:` followed later (on that line) by
`not found`. -/

/-- Whether `pat` occurs at the start of `s` (character-list version of
`String.startsWith`). -/
def startsWithChars : List Char → List Char → Bool
  | [], _ => true
  | _ :: _, [] => false
  | p :: ps, ch :: cs => p == ch && startsWithChars ps cs

/-- Whether `pat` occurs somewhere inside `s`. -/
def hasSub (pat : List Char) : List Char → Bool
  | [] => startsWithChars pat []
  | ch :: cs => startsWithChars pat (ch :: cs) || hasSub pat cs

/-- Whether the string `s` contains the substring `pat`; for a newline-free
`pat` this is exactly JavaScript `s.match("(.*)" + pat + "(.*)") !== null`. -/
def containsStr (s pat : String) : Bool :=
  hasSub pat.toList s.toList

/-- Whether `pre` occurs in `s` followed, later on, by `post`
(starting at or after the end of that occurrence of `pre`). -/
def hasGap (pre post : List Char) : List Char → Bool
  | [] => startsWithChars pre [] && hasSub post []
  | ch :: cs =>
      (startsWithChars pre (ch :: cs) && hasSub post (List.drop pre.length (ch :: cs))) ||
        hasGap pre post cs

/-- Split a character list at newline characters (JavaScript
`s.split("\n")`, at the character level). -/
def splitLines : List Char → List (List Char)
  | [] => [[]]
  | ch :: cs =>
      match splitLines cs with
      | [] => [[]]
      | line :: rest =>
          if ch.toNat == 10 then [] :: line :: rest
          else (ch :: line) :: rest

/-- JavaScript `s.match(pre + "(.*)" + post) !== null` for newline-free
`pre` and `post`: some line of `s` contains `pre` followed by `post`. -/
def regexGapMatches (s pre post : String) : Bool :=
  (splitLines s.toList).any (fun line => hasGap pre.toList post.toList line)

/-- The flags computed by `AzureCliCredential.parseCliLoginError`. -/
structure CliErrorFlags where
  isLoginError : Bool
  isNotInstallError : Bool
deriving Repr, DecidableEq

/-- `AzureCliCredential.parseCliLoginError(stderr)`: a login error is a
match of `az login` that is not a match of `az login --scope`; a
not-installed error is a match of `az:(.*)not found`, or, when that
pattern does not match, stderr starting with `'az' is not recognized`. -/
def parseCliLoginError (stderr : String) : CliErrorFlags :=
  let specificScope := containsStr stderr "az login --scope"
  { isLoginError := containsStr stderr "az login" && !specificScope
    isNotInstallError :=
      regexGapMatches stderr "az:" "not found" ||
        startsWithChars ("\x27az\x27 is not recognized".toList) stderr.toList }

/-- The error, if any, that `AzureCliCredential.getCliToken` rejects with
from the stderr classification alone: the not-installed check comes first,
then the login check (`src/credentials/AzureCliCredential.ts` lines
85-93; same order in `src/lib/AzureCliCredential.ts` lines 48-53). -/
def cliStderrRejection (stderr : String) : Option String :=
  let flags := parseCliLoginError stderr
  if flags.isNotInstallError then some "Azure CLI not found. Please install"
  else if flags.isLoginError then some "Please login to Azure CLI"
  else none

/-! ## Provider responses and per-strategy token derivation -/

/-- The OAuth2 token response of Azure AD / the managed-identity endpoint
(`OAuth2TokenResponse` in `ServicePrincipalCredential.ts`).  `expires_on`
is declared as a string in the source type but is tested for truthiness
before use, so a missing field is modelled as `none`. -/
structure OAuth2TokenResponse where
  access_token : String
  client_id : Option String := none
  expires_in : Int := 0
  expires_on : Option String := none
  ext_expires_in : Int := 0
  not_before : Option String := none
  resource : String := ""
  token_type : String := "Bearer"
deriving Repr, DecidableEq

/-- The result shape of `ServicePrincipalCredential.getToken`
(`src/unnamed/part_000` lines 101-104): this generation names the
access-token field `token`. -/
structure SPTokenResult where
  token : String
  expiresAt : JsDate
deriving Repr, DecidableEq

/-- The success path of `ServicePrincipalCredential.getToken`
(`src/unnamed/part_000` lines 99-104): `token` is the response's
`access_token` and the expiry is additive,
`new Date(Date.now() + data.expires_in * 1000)`. -/
def ServicePrincipalCredential.tokenFromResponse (now : Int) (data : OAuth2TokenResponse) : SPTokenResult :=
  { token := data.access_token
    expiresAt := some (now + data.expires_in * 1000) }

/-- The success path of `ManagedIdentityCredential.getToken`
(`src/unnamed/part_001` lines 69-75): expiry is
`new Date(data.expires_on ? Number(data.expires_on) * 1000
: Date.now() + 60 * 60 * 1000)`. -/
def ManagedIdentityCredential.tokenFromResponse (now : Int) (data : OAuth2TokenResponse) : Token :=
  { accessToken := data.access_token
    clientId := data.client_id
    expiresAt :=
      if jsTruthyStr data.expires_on then
        (jsNumber (data.expires_on.getD "")).map (fun n => n * 1000)
      else
        some (now + 60 * 60 * 1000)
    tokenType := some data.token_type }

/-- The raw Azure CLI token response (`CLITokenResponse` in
`src/credentials/AzureCliCredential.ts`).  `expires_on` is absent in older
CLI outputs, and `Number.parseInt(undefined, 10)` is NaN, which the model
reproduces with `none`. -/
structure CLITokenResponse where
  accessToken : String
  expiresOn : String := ""
  expires_on : Option String := none
  subscription : Option String := none
  tenant : String := ""
  tokenType : String := "Bearer"
deriving Repr, DecidableEq

/-- `Number.parseInt` applied to a possibly-absent string field. -/
def jsParseIntOpt : Option String → Option Nat
  | none => none
  | some s => jsParseInt10 s

/-- `AzureCliCredential.parseRawOutput` (`src/credentials/AzureCliCredential.ts`
lines 144-160): when `Number.parseInt(response.expires_on, 10) * 1000` is
not NaN the expiry is that epoch-milliseconds value, otherwise it falls
back to `new Date(response.expiresOn)`.  Date-string parsing is a platform
primitive, passed in as `parseDateString`. -/
def AzureCliCredential.parseRawOutput (parseDateString : String → JsDate) (response : CLITokenResponse) : Token :=
  match jsParseIntOpt response.expires_on with
  | some n => { accessToken := response.accessToken
                expiresAt := some ((n : Int) * 1000)
                tokenType := some response.tokenType }
  | none => { accessToken := response.accessToken
              expiresAt := parseDateString response.expiresOn
              tokenType := some response.tokenType }

/-! ## The dispatcher (`src/AzureClient.ts`)

`sendRequest` runs the token-freshness loop
`for (let i = 0; i <= MAX_TOKEN_RETRIES; i++)` over the mutable cached
token, then hands `fetch` the string `baseUrl + path` and the header
object `{...(builder ? builder(token) : {Authorization: "Bearer " +
token.accessToken}), ...init?.headers}`.  The wall clock is a parameter
`nowAt` giving `new Date()` of the i-th loop iteration, and the credential
helper is a parameter `helper` giving the outcome of its i-th `getToken`
invocation.  The model returns the request passed to `fetch` (or the
thrown message) together with a trace: how often the helper was invoked,
the performed `setTimeout` waits, and the final cached token. -/

/-- A JavaScript header object, as key lookup: later spread entries have
already overwritten earlier ones. -/
abbrev Headers := String → Option String

/-- Object spread `{...base, ...extra}` at the lookup level: a key present
in `extra` wins, any other key falls through to `base`. -/
def mergeHeaders (base extra : Headers) : Headers :=
  fun k =>
    match extra k with
    | some v => some v
    | none => base k

/-- The headers that `sendRequest` spreads first: the configured builder's
output when present, else the single default header
`Authorization: Bearer <accessToken>`. -/
def defaultAuthHeaders (t : Token) : Headers :=
  fun k => if k == "Authorization" then some ("Bearer " ++ t.accessToken) else none

/-- The `AzureClientOptions` relevant to the dispatcher: `baseUrl` and the
credential's optional header `builder` (the helper itself and the scope
are abstracted into the `helper` outcome parameter). -/
structure ClientOptions where
  baseUrl : String
  builder : Option (Token → Headers) := none

/-- The slice of a `RequestInit` the dispatcher reads or writes. -/
structure RequestInit where
  method : Option String := none
  headers : Headers := fun _ => none
  body : Option String := none

/-- The arguments `sendRequest` passes to `fetch`. -/
structure FetchRequest where
  url : String
  method : Option String
  headers : Headers
  body : Option String

/-- Observable trace of one `sendRequest` call: number of
`helper.getToken` invocations, the `setTimeout` waits performed (in ms, in
order), and the cached token after the call. -/
structure SendTrace where
  refreshCalls : Nat
  sleeps : List Nat
  token : Option Token

/-- Outcome of the token-freshness loop. -/
inductive LoopResult where
  | done (trace : SendTrace)
  | threw (msg : String) (trace : SendTrace)

/-- `AzureClient.MAX_TOKEN_RETRIES`. -/
def MAX_TOKEN_RETRIES : Nat := 3

/-- Freshness test of the cached token:
`this.token && this.token.expiresAt > new Date()`. -/
def tokenIsFresh (tok : Option Token) (now : Int) : Bool :=
  match tok with
  | some t => jsDateGt t.expiresAt now
  | none => false

/-- One execution of the loop
`for (let i = 0; i <= MAX_TOKEN_RETRIES; i++)` in `sendRequest`, from
iteration `i` on (`fuel` bounds the remaining iterations; it starts at
`MAX_TOKEN_RETRIES + 1` and reaching `0` is the loop condition `i <= 3`
becoming false). Per iteration: break when the cached token is fresh;
throw the refresh-exhausted error when `i === MAX_TOKEN_RETRIES`;
otherwise invoke the helper — a rejection propagates uncaught, since
`refreshToken` has no try/catch — and, after a successful refresh, wait
`100 * i` ms when `i > 0`. -/
def tokenLoopGo (nowAt : Nat → Int) (helper : Nat → Except String Token) :
    Nat → Nat → Option Token → Nat → List Nat → LoopResult
  | 0, _, tok, calls, sleeps => .done { refreshCalls := calls, sleeps := sleeps, token := tok }
  | fuel + 1, i, tok, calls, sleeps =>
      if tokenIsFresh tok (nowAt i) then
        .done { refreshCalls := calls, sleeps := sleeps, token := tok }
      else if i == MAX_TOKEN_RETRIES then
        .threw "Failed to refresh token after multiple attempts"
          { refreshCalls := calls, sleeps := sleeps, token := tok }
      else
        match helper calls with
        | .error e => .threw e { refreshCalls := calls + 1, sleeps := sleeps, token := tok }
        | .ok t =>
            tokenLoopGo nowAt helper fuel (i + 1) (some t) (calls + 1)
              (if 0 < i then sleeps ++ [100 * i] else sleeps)

/-- The trace carried by either loop outcome. -/
def LoopResult.trace : LoopResult → SendTrace
  | .done t => t
  | .threw _ t => t

/-- What a `sendRequest` call does: hand a request to `fetch`, or throw. -/
inductive SendOutcome where
  | fetched (req : FetchRequest)
  | threw (msg : String)

/-- `AzureClient.sendRequest(path, init)` given the wall clock, the
helper's outcomes, the client options and the cached token at entry.
After the loop: the defensive null check, then
`fetch(baseUrl + path, {...init, headers: {...(builder ? builder(token) :
{Authorization: ...}), ...init?.headers}})`. -/
def sendRequest (nowAt : Nat → Int) (helper : Nat → Except String Token)
    (opts : ClientOptions) (token0 : Option Token) (path : String)
    (init : RequestInit) : SendOutcome × SendTrace :=
  match tokenLoopGo nowAt helper (MAX_TOKEN_RETRIES + 1) 0 token0 0 [] with
  | .threw e trace => (.threw e, trace)
  | .done trace =>
      match trace.token with
      | none => (.threw "Token is unexpectedly null after refresh attempts", trace)
      | some t =>
          (.fetched
            { url := opts.baseUrl ++ path
              method := init.method
              headers :=
                mergeHeaders
                  (match opts.builder with
                   | some b => b t
                   | none => defaultAuthHeaders t)
                  init.headers
              body := init.body },
           trace)

/-! ## JSON bodies and the body-bearing verb helpers -/

/-- The JSON-serializable values passed as verb-helper bodies (the
`undefined`-free fragment `JSON.stringify` serializes structurally). -/
inductive Json where
  | null
  | bool (b : Bool)
  | num (n : Int)
  | str (s : String)
  | arr (elems : List Json)
  | obj (fields : List (String × Json))
deriving Repr

/-- `JSON.stringify` escaping of one string character (the escapes that
can occur in the modelled strings). -/
def escapeChar (c : Char) : String :=
  if c.toNat == 34 then "\\\""
  else if c.toNat == 92 then "\\\\"
  else if c.toNat == 10 then "\\n"
  else if c.toNat == 13 then "\\r"
  else if c.toNat == 9 then "\\t"
  else c.toString

/-- `JSON.stringify` of a string value. -/
def escapeJsonString (s : String) : String :=
  "\"" ++ String.join (s.toList.map escapeChar) ++ "\""

mutual

/-- `JSON.stringify(v)` for the modelled JSON fragment: no added
whitespace, object fields in insertion order. -/
def Json.stringify : Json → String
  | .null => "null"
  | .bool true => "true"
  | .bool false => "false"
  | .num n => toString n
  | .str s => escapeJsonString s
  | .arr es => "[" ++ stringifyElems es ++ "]"
  | .obj fs => "\x7b" ++ stringifyFields fs ++ "\x7d"

/-- Comma-separated serialization of array elements. -/
def stringifyElems : List Json → String
  | [] => ""
  | [v] => Json.stringify v
  | v :: w :: vs => Json.stringify v ++ "," ++ stringifyElems (w :: vs)

/-- Comma-separated serialization of object fields. -/
def stringifyFields : List (String × Json) → String
  | [] => ""
  | [(k, v)] => escapeJsonString k ++ ":" ++ Json.stringify v
  | (k, v) :: f :: fs =>
      escapeJsonString k ++ ":" ++ Json.stringify v ++ "," ++ stringifyFields (f :: fs)

end

/-- The single header entry `{"Content-Type": "application/json"}` that the
body-bearing verb helpers spread before the caller's headers. -/
def contentTypeJsonHeader : Headers :=
  fun k => if k == "Content-Type" then some "application/json" else none

/-- The `RequestInit` a body-bearing verb helper builds:
`{...init, method, headers: {"Content-Type": "application/json",
...init?.headers}, body: body !== undefined ? JSON.stringify(body) :
undefined}`. -/
def bodyVerbInit (method : String) (body : Option Json) (init : RequestInit) : RequestInit :=
  { method := some method
    headers := mergeHeaders contentTypeJsonHeader init.headers
    body := body.map Json.stringify }

/-- `AzureClient.post(path, body, init)` (`src/AzureClient.ts` lines 80-90). -/
def post (nowAt : Nat → Int) (helper : Nat → Except String Token)
    (opts : ClientOptions) (token0 : Option Token) (path : String)
    (body : Option Json) (init : RequestInit) : SendOutcome × SendTrace :=
  sendRequest nowAt helper opts token0 path (bodyVerbInit "POST" body init)

/-- `AzureClient.put(path, body, init)` (`src/AzureClient.ts` lines 99-109). -/
def put (nowAt : Nat → Int) (helper : Nat → Except String Token)
    (opts : ClientOptions) (token0 : Option Token) (path : String)
    (body : Option Json) (init : RequestInit) : SendOutcome × SendTrace :=
  sendRequest nowAt helper opts token0 path (bodyVerbInit "PUT" body init)

/-- `AzureClient.patch(path, body, init)` (`src/AzureClient.ts` lines 118-128). -/
def patch (nowAt : Nat → Int) (helper : Nat → Except String Token)
    (opts : ClientOptions) (token0 : Option Token) (path : String)
    (body : Option Json) (init : RequestInit) : SendOutcome × SendTrace :=
  sendRequest nowAt helper opts token0 path (bodyVerbInit "PATCH" body init)

/-! ## Shared lemmas -/

/-- The helper-invocation count never decreases along the token loop. -/
theorem tokenLoopGo_calls_le (nowAt : Nat → Int) (helper : Nat → Except String Token) :
    ∀ fuel i tok calls sleeps,
      calls ≤ ((tokenLoopGo nowAt helper fuel i tok calls sleeps).trace).refreshCalls := by
  intro fuel
  induction fuel with
  | zero => intro i tok calls sleeps; simp [tokenLoopGo, LoopResult.trace]
  | succ fuel ih =>
      intro i tok calls sleeps
      simp only [tokenLoopGo]
      split
      · simp [LoopResult.trace]
      · split
        · simp [LoopResult.trace]
        · cases helper calls with
          | error e => simp [LoopResult.trace]
          | ok t =>
              exact Nat.le_trans (Nat.le_succ calls) (ih (i + 1) (some t) (calls + 1) _)

/-- The trace a `sendRequest` call reports is the trace of its token loop. -/
theorem sendRequest_trace (nowAt : Nat → Int) (helper : Nat → Except String Token)
    (opts : ClientOptions) (token0 : Option Token) (path : String) (init : RequestInit) :
    (sendRequest nowAt helper opts token0 path init).2 =
      (tokenLoopGo nowAt helper (MAX_TOKEN_RETRIES + 1) 0 token0 0 []).trace := by
  unfold sendRequest
  cases tokenLoopGo nowAt helper (MAX_TOKEN_RETRIES + 1) 0 token0 0 [] with
  | threw e trace => simp [LoopResult.trace]
  | done trace =>
      cases trace with
      | mk calls sleeps tok => cases tok <;> simp [LoopResult.trace]

/-- With a cached token whose expiry is strictly after the clock at loop
entry, `sendRequest` breaks out of the loop immediately and dispatches. -/
theorem sendRequest_fresh (nowAt : Nat → Int) (helper : Nat → Except String Token)
    (opts : ClientOptions) (t : Token) (path : String) (init : RequestInit)
    (h : jsDateGt t.expiresAt (nowAt 0) = true) :
    sendRequest nowAt helper opts (some t) path init =
      (.fetched
        { url := opts.baseUrl ++ path
          method := init.method
          headers :=
            mergeHeaders
              (match opts.builder with
               | some b => b t
               | none => defaultAuthHeaders t)
              init.headers
          body := init.body },
       { refreshCalls := 0, sleeps := [], token := some t }) := by
  unfold sendRequest
  simp [tokenLoopGo, tokenIsFresh, h]

/-! ## The claims -/

/-- C3: for every scope, the chained credential tries the strategies in
the fixed order Workload Identity, Managed Identity, Service Principal,
CLI, returns the token of the first strategy that succeeds, and never
invokes the strategies after the first success. -/
theorem C3_chain_order_first_success (w m s c : Except String Token) (t : Token) :
    (w = .ok t →
       DefaultChainedCredential.getToken w m s c =
         { result := .ok t, invoked := ["WorkloadIdentityCredential"] }) ∧
    (∀ e1, w = .error e1 → m = .ok t →
       DefaultChainedCredential.getToken w m s c =
         { result := .ok t
           invoked := ["WorkloadIdentityCredential", "ManagedIdentityCredential"] }) ∧
    (∀ e1 e2, w = .error e1 → m = .error e2 → s = .ok t →
       DefaultChainedCredential.getToken w m s c =
         { result := .ok t
           invoked := ["WorkloadIdentityCredential", "ManagedIdentityCredential",
                       "ServicePrincipalCredential"] }) ∧
    (∀ e1 e2 e3, w = .error e1 → m = .error e2 → s = .error e3 → c = .ok t →
       DefaultChainedCredential.getToken w m s c =
         { result := .ok t
           invoked := ["WorkloadIdentityCredential", "ManagedIdentityCredential",
                       "ServicePrincipalCredential", "AzureCliCredential"] }) := by
  refine ⟨?_, ?_, ?_, ?_⟩
  · intro hw; subst hw; rfl
  · intro e1 hw hm; subst hw; subst hm; rfl
  · intro e1 e2 hw hm hs; subst hw; subst hm; subst hs; rfl
  · intro e1 e2 e3 hw hm hs hc; subst hw; subst hm; subst hs; subst hc; rfl

/-- Witness for C3: with the first two strategies failing and the third
succeeding, the third strategy's token is returned and the CLI strategy is
never invoked. -/
theorem C3_chain_order_first_success_witness :
    DefaultChainedCredential.getToken (.error "e1") (.error "e2")
        (.ok { accessToken := "tok", expiresAt := some 100 }) (.error "e4") =
      { result := .ok { accessToken := "tok", expiresAt := some 100 }
        invoked := ["WorkloadIdentityCredential", "ManagedIdentityCredential",
                    "ServicePrincipalCredential"] } :=
  (C3_chain_order_first_success (.error "e1") (.error "e2")
      (.ok { accessToken := "tok", expiresAt := some 100 }) (.error "e4")
      { accessToken := "tok", expiresAt := some 100 }).2.2.1 "e1" "e2" rfl rfl rfl

/-- C4: when all four strategies fail, the chained credential rejects with
one aggregate error whose message lists every strategy's class name with
that strategy's failure message, one per line, in chain order; all four
strategies were invoked. -/
theorem C4_chain_exhausted_aggregate (w m s c : Except String Token) (e1 e2 e3 e4 : String)
    (hw : w = .error e1) (hm : m = .error e2) (hs : s = .error e3) (hc : c = .error e4) :
    (DefaultChainedCredential.getToken w m s c).result =
      .error ("Failed to get token, errors:\n[WorkloadIdentityCredential] " ++ e1 ++
        "\n[ManagedIdentityCredential] " ++ e2 ++
        "\n[ServicePrincipalCredential] " ++ e3 ++
        "\n[AzureCliCredential] " ++ e4) ∧
    (DefaultChainedCredential.getToken w m s c).invoked =
      ["WorkloadIdentityCredential", "ManagedIdentityCredential",
       "ServicePrincipalCredential", "AzureCliCredential"] := by
  subst hw; subst hm; subst hs; subst hc
  refine ⟨?_, rfl⟩
  show Except.error
      (aggregateErrorMessage
        [("WorkloadIdentityCredential", e1), ("ManagedIdentityCredential", e2),
         ("ServicePrincipalCredential", e3), ("AzureCliCredential", e4)]) = _
  simp only [aggregateErrorMessage, List.map_cons, List.map_nil, joinNewline,
    String.append_assoc]
  rfl

/-- Witness for C4: concrete failure messages produce the full aggregate
error text. -/
theorem C4_chain_exhausted_aggregate_witness :
    (DefaultChainedCredential.getToken (.error "b1") (.error "b2") (.error "b3")
        (.error "b4")).result =
      .error ("Failed to get token, errors:\n[WorkloadIdentityCredential] b1\n[ManagedIdentityCredential] b2\n[ServicePrincipalCredential] b3\n[AzureCliCredential] b4") := by
  have h := C4_chain_exhausted_aggregate (.error "b1") (.error "b2") (.error "b3")
    (.error "b4") "b1" "b2" "b3" "b4" rfl rfl rfl rfl
  rw [h.1]
  rfl

/-- C1: the claim (and the `@throws` documentation of `sendRequest`) says a
helper whose `getToken` rejects on every invocation is retried up to 3
times with linear backoff before `sendRequest` rejects with the
refresh-exhausted error.  The code's `refreshToken` has no try/catch, so
the first helper rejection propagates: with no cached token and a helper
that always rejects with `boom`, `sendRequest` rejects with `boom` after
exactly one helper invocation and no backoff waits (first conjunct).  The
refresh-exhausted error and the `[100, 200]` backoff waits only arise when
the helper keeps succeeding with an already-expired token (second
conjunct).  In both cases the transport is never called (the outcome is a
throw, not a fetch). -/
theorem C1_refresh_error_propagates :
    (sendRequest (fun _ => 0) (fun _ => .error "boom") { baseUrl := "https://x" } none "/p" {} =
      (.threw "boom", { refreshCalls := 1, sleeps := [], token := none })) ∧
    (sendRequest (fun _ => 0) (fun _ => .ok { accessToken := "a", expiresAt := some 0 })
        { baseUrl := "https://x" } none "/p" {} =
      (.threw "Failed to refresh token after multiple attempts",
        { refreshCalls := 3, sleeps := [100, 200],
          token := some { accessToken := "a", expiresAt := some 0 } })) ∧
    ("boom" : String) ≠ "Failed to refresh token after multiple attempts" :=
  ⟨rfl, rfl, by decide⟩

/-- C2 counterexample: `sendRequest` passes `baseUrl + path` to the
transport verbatim, so `baseUrl = "https://x/"` with `path = "/y"` yields
`https://x//y` and `baseUrl = "https://x"` with `path = "y"` yields
`https://xy` — neither is the claimed normalized join `https://x/y`. -/
theorem C2_url_join_cex :
    (∃ req,
      (sendRequest (fun _ => 0) (fun _ => .error "e") { baseUrl := "https://x/" }
          (some { accessToken := "tok", expiresAt := some 5 }) "/y" {}).1 = .fetched req ∧
      req.url = "https://x//y") ∧
    (∃ req,
      (sendRequest (fun _ => 0) (fun _ => .error "e") { baseUrl := "https://x" }
          (some { accessToken := "tok", expiresAt := some 5 }) "y" {}).1 = .fetched req ∧
      req.url = "https://xy") ∧
    ("https://x//y" : String) ≠ "https://x/y" ∧ ("https://xy" : String) ≠ "https://x/y" :=
  ⟨⟨_, rfl, rfl⟩, ⟨_, rfl, rfl⟩, by decide, by decide⟩

/-- C2 (amended): the URL `sendRequest` passes to the HTTP transport is the
plain string concatenation of the configured base URL and the path, with
no slash normalization on either side. -/
theorem C2_url_is_concatenation (nowAt : Nat → Int) (helper : Nat → Except String Token)
    (opts : ClientOptions) (t : Token) (path : String) (init : RequestInit)
    (h : jsDateGt t.expiresAt (nowAt 0) = true) :
    ∃ req, (sendRequest nowAt helper opts (some t) path init).1 = .fetched req ∧
      req.url = opts.baseUrl ++ path := by
  rw [sendRequest_fresh nowAt helper opts t path init h]
  exact ⟨_, rfl, rfl⟩

/-- Witness for the amended C2. -/
theorem C2_url_is_concatenation_witness :
    jsDateGt (some 5 : JsDate) 0 = true ∧
    ∃ req,
      (sendRequest (fun _ => 0) (fun _ => .error "e") { baseUrl := "https://x" }
          (some { accessToken := "tok", expiresAt := some 5 }) "/y" {}).1 = .fetched req ∧
      req.url = "https://x" ++ "/y" :=
  ⟨by decide,
   C2_url_is_concatenation (fun _ => 0) (fun _ => .error "e") { baseUrl := "https://x" }
     { accessToken := "tok", expiresAt := some 5 } "/y" {} (by decide)⟩

/-- C9: with a cached token whose `expiresAt` is strictly after the
current time, `sendRequest` never invokes the credential helper and leaves
the cached token unchanged while dispatching to the transport (first
conjunct); and the comparison is strict — a token whose expiry equals the
current time already triggers at least one helper invocation, so there is
no grace period in either direction (second conjunct). -/
theorem C9_fresh_token_skips_refresh (nowAt : Nat → Int) (helper : Nat → Except String Token)
    (opts : ClientOptions) (t : Token) (path : String) (init : RequestInit)
    (h : jsDateGt t.expiresAt (nowAt 0) = true) :
    ((sendRequest nowAt helper opts (some t) path init).2.refreshCalls = 0 ∧
     (sendRequest nowAt helper opts (some t) path init).2.token = some t ∧
     ∃ req, (sendRequest nowAt helper opts (some t) path init).1 = .fetched req) ∧
    (∀ t' : Token, t'.expiresAt = some (nowAt 0) →
      1 ≤ (sendRequest nowAt helper opts (some t') path init).2.refreshCalls) := by
  constructor
  · rw [sendRequest_fresh nowAt helper opts t path init h]
    exact ⟨rfl, rfl, _, rfl⟩
  · intro t' ht'
    rw [sendRequest_trace]
    have h0 : tokenIsFresh (some t') (nowAt 0) = false := by
      simp [tokenIsFresh, jsDateGt, ht']
    simp only [tokenLoopGo, h0, Bool.false_eq_true, if_false,
      show (0 == MAX_TOKEN_RETRIES) = false from rfl]
    cases hh : helper 0 with
    | error e => simp [LoopResult.trace]
    | ok t'' => exact tokenLoopGo_calls_le nowAt helper MAX_TOKEN_RETRIES 1 (some t'') 1 []

/-- Witness for C9. -/
theorem C9_fresh_token_skips_refresh_witness :
    jsDateGt (some 5 : JsDate) 0 = true ∧
    ((sendRequest (fun _ => 0) (fun _ => .error "e") { baseUrl := "https://x" }
        (some { accessToken := "tok", expiresAt := some 5 }) "/y" {}).2.refreshCalls = 0 ∧
     (sendRequest (fun _ => 0) (fun _ => .error "e") { baseUrl := "https://x" }
        (some { accessToken := "tok", expiresAt := some 5 }) "/y" {}).2.token =
       some { accessToken := "tok", expiresAt := some 5 } ∧
     ∃ req,
       (sendRequest (fun _ => 0) (fun _ => .error "e") { baseUrl := "https://x" }
          (some { accessToken := "tok", expiresAt := some 5 }) "/y" {}).1 = .fetched req) ∧
    1 ≤ (sendRequest (fun _ => 0) (fun _ => .error "e") { baseUrl := "https://x" }
        (some { accessToken := "boundary", expiresAt := some 0 }) "/y" {}).2.refreshCalls := by
  have h := C9_fresh_token_skips_refresh (fun _ => 0) (fun _ => .error "e")
    { baseUrl := "https://x" } { accessToken := "tok", expiresAt := some 5 } "/y" {}
    (by decide)
  exact ⟨by decide, h.1, h.2 { accessToken := "boundary", expiresAt := some 0 } rfl⟩

/-- C7: the dispatched headers are the spread of the builder's output
(when a builder is configured) or the default bearer-authorization header
(otherwise), with the caller-supplied headers applied last: on a key
collision the caller's value wins, and a key present on only one side is
preserved. -/
theorem C7_header_merge (nowAt : Nat → Int) (helper : Nat → Except String Token)
    (opts : ClientOptions) (t : Token) (path : String) (init : RequestInit)
    (h : jsDateGt t.expiresAt (nowAt 0) = true) :
    ∃ req, (sendRequest nowAt helper opts (some t) path init).1 = .fetched req ∧
      (∀ k v, init.headers k = some v → req.headers k = some v) ∧
      (∀ k, init.headers k = none →
        (opts.builder = none →
          req.headers k =
            if k == "Authorization" then some ("Bearer " ++ t.accessToken) else none) ∧
        (∀ b, opts.builder = some b → req.headers k = b t k)) := by
  rw [sendRequest_fresh nowAt helper opts t path init h]
  refine ⟨_, rfl, ?_, ?_⟩
  · intro k v hk
    simp [mergeHeaders, hk]
  · intro k hk
    constructor
    · intro hb
      simp [mergeHeaders, hk, hb, defaultAuthHeaders]
    · intro b hb
      simp [mergeHeaders, hk, hb]

/-- Witness for C7: a caller-supplied custom header survives the merge and
the default bearer header is present when the caller does not collide with
it. -/
theorem C7_header_merge_witness :
    ∃ req,
      (sendRequest (fun _ => 0) (fun _ => .error "e") { baseUrl := "https://x" }
          (some { accessToken := "tok", expiresAt := some 5 }) "/y"
          { headers := fun k => if k == "X-Custom" then some "1" else none }).1 =
        .fetched req ∧
      req.headers "X-Custom" = some "1" ∧
      req.headers "Authorization" = some "Bearer tok" := by
  obtain ⟨req, hreq, hcaller, hbase⟩ :=
    C7_header_merge (fun _ => 0) (fun _ => .error "e") { baseUrl := "https://x" }
      { accessToken := "tok", expiresAt := some 5 } "/y"
      { headers := fun k => if k == "X-Custom" then some "1" else none } (by decide)
  refine ⟨req, hreq, hcaller "X-Custom" "1" (by decide), ?_⟩
  have hauth := (hbase "Authorization" (by decide)).1 rfl
  simpa using hauth

/-- C8: `post(path, body)` dispatches a POST whose body is the
`JSON.stringify` serialization of the body value and whose headers carry
`Content-Type: application/json` unless the caller-supplied headers
override that key; `put` and `patch` behave identically for their verbs;
and the serialization of the object with the single field `a: 1` is the
seven-character literal of the claim. -/
theorem C8_body_verbs_serialize_json (nowAt : Nat → Int) (helper : Nat → Except String Token)
    (opts : ClientOptions) (t : Token) (path : String) (init : RequestInit) (v : Json)
    (h : jsDateGt t.expiresAt (nowAt 0) = true) :
    (∃ req, (post nowAt helper opts (some t) path (some v) init).1 = .fetched req ∧
       req.method = some "POST" ∧ req.body = some (Json.stringify v) ∧
       req.headers "Content-Type" =
         (match init.headers "Content-Type" with
          | some cv => some cv
          | none => some "application/json")) ∧
    (∃ req, (put nowAt helper opts (some t) path (some v) init).1 = .fetched req ∧
       req.method = some "PUT" ∧ req.body = some (Json.stringify v) ∧
       req.headers "Content-Type" =
         (match init.headers "Content-Type" with
          | some cv => some cv
          | none => some "application/json")) ∧
    (∃ req, (patch nowAt helper opts (some t) path (some v) init).1 = .fetched req ∧
       req.method = some "PATCH" ∧ req.body = some (Json.stringify v) ∧
       req.headers "Content-Type" =
         (match init.headers "Content-Type" with
          | some cv => some cv
          | none => some "application/json")) ∧
    Json.stringify (.obj [("a", .num 1)]) = "\x7b\"a\":1\x7d" := by
  refine ⟨?_, ?_, ?_, rfl⟩
  · simp only [post]
    rw [sendRequest_fresh nowAt helper opts t path (bodyVerbInit "POST" (some v) init) h]
    refine ⟨_, rfl, rfl, rfl, ?_⟩
    simp only [bodyVerbInit, mergeHeaders, contentTypeJsonHeader]
    cases hct : init.headers "Content-Type" <;> simp
  · simp only [put]
    rw [sendRequest_fresh nowAt helper opts t path (bodyVerbInit "PUT" (some v) init) h]
    refine ⟨_, rfl, rfl, rfl, ?_⟩
    simp only [bodyVerbInit, mergeHeaders, contentTypeJsonHeader]
    cases hct : init.headers "Content-Type" <;> simp
  · simp only [patch]
    rw [sendRequest_fresh nowAt helper opts t path (bodyVerbInit "PATCH" (some v) init) h]
    refine ⟨_, rfl, rfl, rfl, ?_⟩
    simp only [bodyVerbInit, mergeHeaders, contentTypeJsonHeader]
    cases hct : init.headers "Content-Type" <;> simp

/-- Witness for C8: posting the body `{a: 1}` with no caller headers sends
the literal text of the claim with the default JSON content type. -/
theorem C8_body_verbs_serialize_json_witness :
    ∃ req,
      (post (fun _ => 0) (fun _ => .error "e") { baseUrl := "https://x" }
          (some { accessToken := "tok", expiresAt := some 5 }) "/y"
          (some (.obj [("a", .num 1)])) {}).1 = .fetched req ∧
      req.method = some "POST" ∧ req.body = some "\x7b\"a\":1\x7d" ∧
      req.headers "Content-Type" = some "application/json" := by
  obtain ⟨⟨req, hreq, hm, hb, hct⟩, -, -, hlit⟩ :=
    C8_body_verbs_serialize_json (fun _ => 0) (fun _ => .error "e") { baseUrl := "https://x" }
      { accessToken := "tok", expiresAt := some 5 } "/y" {} (.obj [("a", .num 1)]) (by decide)
  exact ⟨req, hreq, hm, by rw [hb, hlit], hct⟩

/-- C10: a body-bearing verb helper called with an omitted body dispatches
a request with no body at all (`undefined` is not serialized to the string
`"undefined"`), while the verb's method and the default
`Content-Type: application/json` header are still set. -/
theorem C10_omitted_body_stays_absent (nowAt : Nat → Int) (helper : Nat → Except String Token)
    (opts : ClientOptions) (t : Token) (path : String) (init : RequestInit)
    (h : jsDateGt t.expiresAt (nowAt 0) = true)
    (hct : init.headers "Content-Type" = none) :
    (∃ req, (post nowAt helper opts (some t) path none init).1 = .fetched req ∧
       req.method = some "POST" ∧ req.body = none ∧ req.body ≠ some "undefined" ∧
       req.headers "Content-Type" = some "application/json") ∧
    (∃ req, (put nowAt helper opts (some t) path none init).1 = .fetched req ∧
       req.method = some "PUT" ∧ req.body = none ∧ req.body ≠ some "undefined" ∧
       req.headers "Content-Type" = some "application/json") ∧
    (∃ req, (patch nowAt helper opts (some t) path none init).1 = .fetched req ∧
       req.method = some "PATCH" ∧ req.body = none ∧ req.body ≠ some "undefined" ∧
       req.headers "Content-Type" = some "application/json") := by
  refine ⟨?_, ?_, ?_⟩
  · simp only [post]
    rw [sendRequest_fresh nowAt helper opts t path (bodyVerbInit "POST" none init) h]
    refine ⟨_, rfl, rfl, rfl, by simp [bodyVerbInit], ?_⟩
    simp [bodyVerbInit, mergeHeaders, contentTypeJsonHeader, hct]
  · simp only [put]
    rw [sendRequest_fresh nowAt helper opts t path (bodyVerbInit "PUT" none init) h]
    refine ⟨_, rfl, rfl, rfl, by simp [bodyVerbInit], ?_⟩
    simp [bodyVerbInit, mergeHeaders, contentTypeJsonHeader, hct]
  · simp only [patch]
    rw [sendRequest_fresh nowAt helper opts t path (bodyVerbInit "PATCH" none init) h]
    refine ⟨_, rfl, rfl, rfl, by simp [bodyVerbInit], ?_⟩
    simp [bodyVerbInit, mergeHeaders, contentTypeJsonHeader, hct]

/-- Witness for C10. -/
theorem C10_omitted_body_stays_absent_witness :
    ∃ req,
      (patch (fun _ => 0) (fun _ => .error "e") { baseUrl := "https://x" }
          (some { accessToken := "tok", expiresAt := some 5 }) "/y" none {}).1 = .fetched req ∧
      req.method = some "PATCH" ∧ req.body = none ∧
      req.headers "Content-Type" = some "application/json" := by
  obtain ⟨-, -, req, hreq, hm, hb, -, hc⟩ :=
    C10_omitted_body_stays_absent (fun _ => 0) (fun _ => .error "e") { baseUrl := "https://x" }
      { accessToken := "tok", expiresAt := some 5 } "/y" {} (by decide) rfl
  exact ⟨req, hreq, hm, hb, hc⟩

/-- C5 counterexample: the Managed Identity strategy does not fall back to
`now + 1 hour` when `expires_on` is present but unparsable — for the
response with `expires_on = "abc"` at `now = 0`, `Number("abc") * 1000` is
NaN, so `expiresAt` is an Invalid Date, not `some (0 + 3600000)` as the
claim's fallback rule requires. -/
theorem C5_msi_unparsable_cex :
    (ManagedIdentityCredential.tokenFromResponse 0
        { access_token := "tok", expires_on := some "abc" }).expiresAt = none ∧
    (ManagedIdentityCredential.tokenFromResponse 0
        { access_token := "tok", expires_on := some "abc" }).expiresAt ≠
      some ((0 : Int) + 60 * 60 * 1000) := by
  refine ⟨rfl, by decide⟩

/-- C5 (amended): each strategy's access-token field equals the response's
access-token field, and the expiry derivations are: Service Principal,
additive `now + expires_in` seconds; Managed Identity,
`Number(expires_on) * 1000` whenever `expires_on` is present and non-empty
(an Invalid Date when unparsable) and `now + 1 hour` only when it is
absent or empty; CLI, `parseInt(expires_on) * 1000` when that parses, else
the parsed `expiresOn` date string. -/
theorem C5_token_derivation (now : Int) (data : OAuth2TokenResponse)
    (response : CLITokenResponse) (parseDateString : String → JsDate) :
    ((ServicePrincipalCredential.tokenFromResponse now data).token = data.access_token ∧
     (ServicePrincipalCredential.tokenFromResponse now data).expiresAt =
       some (now + data.expires_in * 1000)) ∧
    ((ManagedIdentityCredential.tokenFromResponse now data).accessToken =
       data.access_token ∧
     (jsTruthyStr data.expires_on = false →
       (ManagedIdentityCredential.tokenFromResponse now data).expiresAt =
         some (now + 60 * 60 * 1000)) ∧
     (∀ s, data.expires_on = some s → s ≠ "" →
       (ManagedIdentityCredential.tokenFromResponse now data).expiresAt =
         (jsNumber s).map (fun n => n * 1000))) ∧
    ((AzureCliCredential.parseRawOutput parseDateString response).accessToken =
       response.accessToken ∧
     (∀ n, jsParseIntOpt response.expires_on = some n →
       (AzureCliCredential.parseRawOutput parseDateString response).expiresAt =
         some ((n : Int) * 1000)) ∧
     (jsParseIntOpt response.expires_on = none →
       (AzureCliCredential.parseRawOutput parseDateString response).expiresAt =
         parseDateString response.expiresOn)) := by
  refine ⟨⟨rfl, rfl⟩, ⟨rfl, ?_, ?_⟩, ⟨?_, ?_, ?_⟩⟩
  · intro hfalse
    simp [ManagedIdentityCredential.tokenFromResponse, hfalse]
  · intro s hs hne
    have htrue : jsTruthyStr (some s) = true := by
      simp [jsTruthyStr, hne]
    simp [ManagedIdentityCredential.tokenFromResponse, hs, htrue]
  · unfold AzureCliCredential.parseRawOutput
    cases jsParseIntOpt response.expires_on <;> rfl
  · intro n hn
    simp [AzureCliCredential.parseRawOutput, hn]
  · intro hn
    simp [AzureCliCredential.parseRawOutput, hn]

/-- Witness for the amended C5: the three derivations at concrete
well-formed responses. -/
theorem C5_token_derivation_witness :
    (ServicePrincipalCredential.tokenFromResponse 0
        { access_token := "sp", expires_in := 3599 }).expiresAt =
      some ((0 : Int) + 3599 * 1000) ∧
    (ManagedIdentityCredential.tokenFromResponse 0
        { access_token := "mi", expires_on := some "1700000000" }).expiresAt =
      (jsNumber "1700000000").map (fun n => n * 1000) ∧
    (AzureCliCredential.parseRawOutput (fun _ => none)
        { accessToken := "cli", expires_on := some "1700000000" }).expiresAt =
      some ((1700000000 : Nat) * 1000 : Int) := by
  have hsp := (C5_token_derivation 0 { access_token := "sp", expires_in := 3599 }
    { accessToken := "cli" } (fun _ => none)).1.2
  have hmi := ((C5_token_derivation 0 { access_token := "mi", expires_on := some "1700000000" }
    { accessToken := "cli" } (fun _ => none)).2.1.2.2) "1700000000" rfl (by decide)
  have hcli := ((C5_token_derivation 0 { access_token := "sp" }
    { accessToken := "cli", expires_on := some "1700000000" } (fun _ => none)).2.2.2.1)
    1700000000 (by decide)
  exact ⟨hsp, hmi, hcli⟩

/-- C6: classifying CLI stderr — stderr containing `az login --scope` is
never classified as a login error; stderr containing `az login` with no
scope mention (and not matching the tool-not-found patterns) rejects with
the login-required error; and stderr matching the tool-not-found patterns
rejects with the distinct `Azure CLI not found` error, which takes
precedence over the login classification. -/
theorem C6_stderr_classification (stderr : String) :
    (containsStr stderr "az login --scope" = true →
      cliStderrRejection stderr ≠ some "Please login to Azure CLI") ∧
    (containsStr stderr "az login" = true →
     containsStr stderr "az login --scope" = false →
     (parseCliLoginError stderr).isNotInstallError = false →
      cliStderrRejection stderr = some "Please login to Azure CLI") ∧
    ((parseCliLoginError stderr).isNotInstallError = true →
      cliStderrRejection stderr = some "Azure CLI not found. Please install") := by
  refine ⟨?_, ?_, ?_⟩
  · intro hscope
    have hlg : (parseCliLoginError stderr).isLoginError = false := by
      simp [parseCliLoginError, hscope]
    simp only [cliStderrRejection, hlg, Bool.false_eq_true, if_false]
    split
    · simp
    · simp
  · intro hlogin hscope hni
    have hlg : (parseCliLoginError stderr).isLoginError = true := by
      simp [parseCliLoginError, hlogin, hscope]
    simp [cliStderrRejection, hni, hlg]
  · intro hni
    simp [cliStderrRejection, hni]

/-- Witness for C6: a bare `az login` hint rejects with the login error; a
scope-specific `az login --scope` hint does not; `az: command not found`
rejects with the not-installed error even though the text could otherwise
also look like a login hint. -/
theorem C6_stderr_classification_witness :
    cliStderrRejection "ERROR: please run az login to set up an account" =
      some "Please login to Azure CLI" ∧
    cliStderrRejection "ERROR: run az login --scope https://management.azure.com/.default" ≠
      some "Please login to Azure CLI" ∧
    cliStderrRejection "az: command not found, try az login" =
      some "Azure CLI not found. Please install" := by
  refine ⟨?_, ?_, ?_⟩
  · exact (C6_stderr_classification
      "ERROR: please run az login to set up an account").2.1 (by decide) (by decide) (by decide)
  · exact (C6_stderr_classification
      "ERROR: run az login --scope https://management.azure.com/.default").1 (by decide)
  · exact (C6_stderr_classification
      "az: command not found, try az login").2.2 (by decide)

end AzureRest

